import Mathlib

/-!
Shallow embedding of `src/main.py` of fantasy-football-metrics-weekly-report:
the orchestration and distribution pipeline (config preflight, CLI week
handling, interactive `select_week` / `select_league` resolvers, and the
`__main__` distribution fan-out block), together with proofs settling the
frozen claims about the natural-language specification.

Interactive stdin is modelled as a `List String` of answers consumed in
order; running out of answers models `input()` raising `EOFError`.  Python
exceptions that the orchestrator does not catch are modelled with the
`PResult.crash` constructor.  `sys.exit()` with no argument exits the
process with status 0 and is modelled as `Outcome.exited 0`.
-/

namespace FFMWR

/-- Observable events of a run: log records, printed lines, prompts shown to
the operator, and calls to external collaborators.  Ordered as in Python
execution order. -/
inductive Ev where
  | logDebug (s : String)
  | logInfo (s : String)
  | logWarning (s : String)
  | logError (s : String)
  | printOut (s : String)
  | parseArgs
  | promptDefaultLeague
  | promptLeagueId
  | promptDefaultWeek
  | promptWeekNumber
  | buildCall (week : Option String) (league_id : Option String)
  | uploadCall (pdf : String)
  | slackPostCall (msg : String)
  | slackFileCall (pdf : String)
deriving Repr, DecidableEq

/-- Result of a fragment of interactive code: either a value together with
the unconsumed stdin answers, or an uncaught Python exception (named by the
string) that aborts the run. -/
inductive PResult (α : Type) where
  | ok (val : α) (rest : List String)
  | crash (msg : String)
deriving Repr, DecidableEq

/-- Process outcome of straight-line code: fell through normally, called
`sys.exit(code)` (plain `sys.exit()` is `exited 0`), or an uncaught
exception propagated. -/
inductive Outcome where
  | normal
  | exited (code : Nat)
  | crashed (msg : String)
deriving Repr, DecidableEq

/-! ## Python `int()` on strings (the cases reachable here)

`int(s)` strips surrounding whitespace, accepts an optional sign followed by
at least one decimal digit, and raises `ValueError` otherwise (modelled as
`none`).  Digit-grouping underscores are not modelled; no input in this
program's claims uses them. -/

/-- Decimal value of a digit run (digits already checked). -/
def digitsVal (l : List Char) : Nat :=
  l.foldl (fun a c => a * 10 + (c.toNat - 48)) 0

/-- Strip leading and trailing whitespace from a character list. -/
def stripWS (l : List Char) : List Char :=
  ((l.dropWhile Char.isWhitespace).reverse.dropWhile Char.isWhitespace).reverse

/-- Sign handling of Python `int()` after stripping: optional `+` or `-`. -/
def pyIntCore (l : List Char) : Option Int :=
  match l with
  | [] => none
  | c :: rest =>
    if c = '-' then
      if rest ≠ [] ∧ rest.all Char.isDigit then some (-(digitsVal rest : Int)) else none
    else if c = '+' then
      if rest ≠ [] ∧ rest.all Char.isDigit then some (digitsVal rest : Int) else none
    else
      if l.all Char.isDigit then some (digitsVal l : Int) else none

/-- Model of Python `int(s)`: `some k` when `s` parses, `none` when
`int(s)` raises `ValueError`. -/
def pyInt (s : String) : Option Int :=
  pyIntCore (stripWS s.toList)

/-- Python truthiness of an optional string (`if not week:` / `if not
league_id:` in `select_league`): `None` and `""` are falsy. -/
def truthy : Option String → Bool
  | none => false
  | some s => !s.isEmpty

/-- A week value is admissible for the Parameter Set when it is
absent/`None` or a string whose `int()` value lies in `[1, 17]`. -/
def validWeekB : Option String → Bool
  | none => true
  | some s =>
    match pyInt s with
    | none => false
    | some k => decide (1 ≤ k ∧ k ≤ 17)

/-! ## `select_week` (src/main.py lines 221-234)

```
def select_week():
    default = input("Generate report for default week? (y/n) -> ")
    if default == "y":
        return None
    elif default == "n":
        chosen_week = input("For which week would you like to generate a report? (1 - 17) -> ")
        if 0 < int(chosen_week) < 18:
            return chosen_week
        else:
            print("Please select a valid week number between 1 and 17.")
            select_week()      # result discarded: function returns None
    else:
        print("You must select either 'y' or 'n'.")
        select_week()          # result discarded: function returns None
```

The two recursive retry calls lack `return`: their crash propagates and
their input consumption happens, but the value falls through to an implicit
`return None`. -/

def select_week : List String → List Ev × PResult (Option String)
  | [] => ([Ev.promptDefaultWeek], PResult.crash "EOFError")
  | d :: rest =>
    if d = "y" then
      ([Ev.promptDefaultWeek], PResult.ok none rest)
    else if d = "n" then
      match rest with
      | [] => ([Ev.promptDefaultWeek, Ev.promptWeekNumber], PResult.crash "EOFError")
      | w :: rest2 =>
        match pyInt w with
        | none => ([Ev.promptDefaultWeek, Ev.promptWeekNumber], PResult.crash "ValueError")
        | some k =>
          if 0 < k ∧ k < 18 then
            ([Ev.promptDefaultWeek, Ev.promptWeekNumber], PResult.ok (some w) rest2)
          else
            match select_week rest2 with
            | (evs, PResult.ok _ rest3) =>
              ([Ev.promptDefaultWeek, Ev.promptWeekNumber,
                Ev.printOut "Please select a valid week number between 1 and 17."] ++ evs,
               PResult.ok none rest3)
            | (evs, PResult.crash m) =>
              ([Ev.promptDefaultWeek, Ev.promptWeekNumber,
                Ev.printOut "Please select a valid week number between 1 and 17."] ++ evs,
               PResult.crash m)
    else
      match select_week rest with
      | (evs, PResult.ok _ rest2) =>
        ([Ev.promptDefaultWeek, Ev.printOut "You must select either \x27y\x27 or \x27n\x27."] ++ evs,
         PResult.ok none rest2)
      | (evs, PResult.crash m) =>
        ([Ev.promptDefaultWeek, Ev.printOut "You must select either \x27y\x27 or \x27n\x27."] ++ evs,
         PResult.crash m)

/-! ## `select_league` (src/main.py lines 142-218)

The `FantasyFootballReport` collaborator is opaque: the embedding records
only the two arguments the orchestrator's control flow depends on (the
`week_for_report` value and the `league_id` keyword, absent in the
default-league branch) and consults an oracle for the constructor's
outcome. -/

/-- The artifact returned by the Report Builder, recording the parameters
the orchestrator passed (the other parameters are pure pass-through). -/
structure Report where
  week : Option String
  league_id : Option String
deriving Repr, DecidableEq

/-- Outcome of one `FantasyFootballReport(...)` constructor call: a built
report, an `IndexError` (the only exception `select_league` ever catches),
or any other exception. -/
inductive BuildOutcome where
  | built (r : Report)
  | indexError
  | otherError
deriving Repr, DecidableEq

/-- The `week_for_report` resolution shared by all three `select_league`
branches (lines 151-154, 172-175, 197-200):
`week_for_report = select_week() if not week else week`. -/
def resolveWeek (week : Option String) (inputs : List String) :
    List Ev × PResult (Option String) :=
  if truthy week then ([], PResult.ok week inputs) else select_week inputs

/-- The `'y'` (lines 149-167) and `"selected"` (lines 195-214) branch
body: resolve the week, then call `FantasyFootballReport` with no exception
handler; `lid_kw` is the `league_id` keyword argument (absent, i.e. `none`,
in the default-league branch). -/
def league_build (builder : Option String → Option String → BuildOutcome)
    (week : Option String) (lid_kw : Option String) (inputs : List String) :
    List Ev × PResult (Option Report) :=
  match resolveWeek week inputs with
  | (wevs, PResult.crash m) => (wevs, PResult.crash m)
  | (wevs, PResult.ok wfr rest) =>
    (wevs ++ [Ev.buildCall wfr lid_kw],
     match builder wfr lid_kw with
     | BuildOutcome.built r => PResult.ok (some r) rest
     | BuildOutcome.indexError => PResult.crash "IndexError"
     | BuildOutcome.otherError => PResult.crash "Exception")

/-- Outcome of the guarded build attempt of the `'n'` branch: either a
final result (report built, or an uncaught non-`IndexError` exception, or
a crash during week selection), or "caught `IndexError`, print the notice
and re-resolve with the remaining answers". -/
inductive TryOut where
  | done (res : PResult (Option Report))
  | retryAfter (rest3 : List String)
deriving Repr, DecidableEq

/-- Lines 172-192 of the `'n'` branch: resolve the week, call
`FantasyFootballReport` with the interactively entered `lid` under
`try/except IndexError`. -/
def league_try_build (builder : Option String → Option String → BuildOutcome)
    (week : Option String) (lid : String) (inputs : List String) :
    List Ev × TryOut :=
  match resolveWeek week inputs with
  | (wevs, PResult.crash m) => (wevs, TryOut.done (PResult.crash m))
  | (wevs, PResult.ok wfr rest3) =>
    match builder wfr (some lid) with
    | BuildOutcome.built r =>
      (wevs ++ [Ev.buildCall wfr (some lid)], TryOut.done (PResult.ok (some r) rest3))
    | BuildOutcome.indexError =>
      (wevs ++ [Ev.buildCall wfr (some lid),
                Ev.printOut "The league ID you have selected is not valid."],
       TryOut.retryAfter rest3)
    | BuildOutcome.otherError =>
      (wevs ++ [Ev.buildCall wfr (some lid)], TryOut.done (PResult.crash "Exception"))

/-- The retry calls on lines 193 and 217 lack `return`: the retried
resolution runs (its crash propagates) but its value is discarded and the
enclosing call falls through, returning `None`. -/
def discardResult : PResult (Option Report) → PResult (Option Report)
  | PResult.ok _ r => PResult.ok none r
  | PResult.crash m => PResult.crash m

/-- Fuel-indexed embedding of `select_league` (lines 142-218).  The
`builder` oracle stands for the `FantasyFootballReport` constructor.
Faithful details: an explicit (truthy) league ID acts as the pre-confirmed
`"selected"` answer (lines 144-147); the `'n'` branch catches only
`IndexError` and retries with the league ID cleared to `None` (lines
191-194); both retry calls discard their result (`discardResult`).  Every
recursive call first consumes at least one stdin answer, so with fuel
exceeding the number of remaining answers the `"OutOfFuel"` branch is
unreachable (`select_league_fuel_stable` below); `select_league` runs with
that much fuel. -/
def select_league_fuel (builder : Option String → Option String → BuildOutcome)
    (week : Option String) :
    Nat → Option String → List String → List Ev × PResult (Option Report)
  | 0, _, _ => ([], PResult.crash "OutOfFuel")
  | fuel + 1, league_id, inputs =>
    if truthy league_id then
      league_build builder week league_id inputs
    else
      match inputs with
      | [] => ([Ev.promptDefaultLeague], PResult.crash "EOFError")
      | d :: rest =>
        if d = "y" then
          let b := league_build builder week none rest
          (Ev.promptDefaultLeague :: b.1, b.2)
        else if d = "n" then
          match rest with
          | [] => ([Ev.promptDefaultLeague, Ev.promptLeagueId], PResult.crash "EOFError")
          | lid :: rest2 =>
            match league_try_build builder week lid rest2 with
            | (evs, TryOut.done res) =>
              (Ev.promptDefaultLeague :: Ev.promptLeagueId :: evs, res)
            | (evs, TryOut.retryAfter rest3) =>
              let retry := select_league_fuel builder week fuel none rest3
              (Ev.promptDefaultLeague :: Ev.promptLeagueId :: (evs ++ retry.1),
               discardResult retry.2)
        else
          let retry := select_league_fuel builder week fuel none rest
          (Ev.promptDefaultLeague ::
             Ev.printOut "You must select either \x27y\x27 or \x27n\x27." :: retry.1,
           discardResult retry.2)

/-- `select_league`, run with enough fuel that the fuel never runs out. -/
def select_league (builder : Option String → Option String → BuildOutcome)
    (week : Option String) (league_id : Option String) (inputs : List String) :
    List Ev × PResult (Option Report) :=
  select_league_fuel builder week (inputs.length + 1) league_id inputs

/-! ## CLI week handling in `main` (src/main.py lines 110-115)

```
elif opt in ("-w", "--week"):
    if int(arg) < 1 or int(arg) > 17:
        print("\nPlease select a valid week number from 1 to 17.")
        options_dict["week"] = select_week()
    else:
        options_dict["week"] = arg
```
`int(arg)` raising `ValueError` on a non-numeric argument is not caught. -/

def process_week_opt (arg : String) (inputs : List String) :
    List Ev × PResult (Option String) :=
  match pyInt arg with
  | none => ([], PResult.crash "ValueError")
  | some k =>
    if k < 1 ∨ k > 17 then
      let w := select_week inputs
      (Ev.printOut "\nPlease select a valid week number from 1 to 17." :: w.1, w.2)
    else
      ([], PResult.ok (some arg) inputs)

/-! ## Environment preflight (src/main.py lines 40-68) -/

/-- Result of `pkg_resources.require` on one declared dependency: satisfied,
`DistributionNotFound` or `VersionConflict` (with the exception's text). -/
inductive DepStatus where
  | ok
  | distributionNotFound (emsg : String)
  | versionConflict (emsg : String)
deriving Repr, DecidableEq

/-- `re.split("\W+", dependency)[0]`: the leading run of word characters
(letters, digits, underscore) of the dependency specification. -/
def firstWord (s : String) : String :=
  String.mk (s.toList.takeWhile (fun c => c.isAlphanum ∨ c = '_'))

/-- The log records produced for one dependency (lines 48-61); the
formatted traceback appended to the first record is elided. -/
def depLog (dep : String) (st : DepStatus) : List Ev :=
  match st with
  | DepStatus.ok => []
  | DepStatus.distributionNotFound emsg =>
    [Ev.logError ("Error: " ++ emsg),
     Ev.logError ("MISSING DEPENDENCY: " ++ dep ++ ". Please run `pip install " ++
       firstWord dep ++ "` and retry the report generation.")]
  | DepStatus.versionConflict emsg =>
    [Ev.logError ("Error: " ++ emsg),
     Ev.logError ("MISSING DEPENDENCY: " ++ dep ++ ". Please run `pip install " ++
       dep ++ "` and retry the report generation.")]

/-- `missing_dependency_count` after the scan (incremented in both except
branches, lines 51 and 57). -/
def failCount (deps : List (String × DepStatus)) : Nat :=
  (deps.filter (fun p => p.2 ≠ DepStatus.ok)).length

/-- The aggregate abort record (lines 63-67). -/
def missingSummary (n : Nat) : String :=
  "MISSING " ++ toString n ++ " " ++
    (if n = 1 then "DEPENDENCY" else "DEPENDENCIES") ++ ". Report generation aborted."

/-- The dependency scan of `main` (lines 46-68): check every declared
dependency, never short-circuiting, then `sys.exit()` (status 0) when any
failed. -/
def preflight (deps : List (String × DepStatus)) : List Ev × Outcome :=
  if failCount deps > 0 then
    ((deps.map (fun p => depLog p.1 p.2)).flatten ++
       [Ev.logError (missingSummary (failCount deps))],
     Outcome.exited 0)
  else
    ((deps.map (fun p => depLog p.1 p.2)).flatten, Outcome.normal)

/-! ## Module-level config check (src/main.py lines 21-36) and run glue -/

/-- Accessibility of `config.ini` at interpreter startup. -/
inductive ConfigStatus where
  | readable
  | unreadable
  | missing
deriving Repr, DecidableEq

/-- Lines 21-33: check existence then readability; `sys.exit()` (status 0)
on either failure. -/
def config_check : ConfigStatus → List Ev × Outcome
  | ConfigStatus.readable =>
    ([Ev.logDebug "Configuration file \"config.ini\" available. Running Fantasy Football Metrics Weekly Report app..."],
     Outcome.normal)
  | ConfigStatus.unreadable =>
    ([Ev.logError "Unable to access configuration file \"config.ini\". Please check that file permissions are properly set."],
     Outcome.exited 0)
  | ConfigStatus.missing =>
    ([Ev.logError "Configuration file \"config.ini\" not found. Please make sure that it exists in project root directory."],
     Outcome.exited 0)

/-- Result of the startup phases up to and including `main(argv)`: process
already exited, uncaught exception, or the parsed options (only the week
entry is control-flow relevant; the other options are pass-through). -/
inductive RunRes where
  | exited (code : Nat)
  | crashed (msg : String)
  | options (week : Option String) (rest : List String)
deriving Repr, DecidableEq

/-- `main(argv)` (lines 39-139) restricted to its control-flow relevant
parts: the dependency preflight, then argument processing (`parseArgs`
marks the `getopt` call, line 93) with the `-w` handling; `weekArg` is the
`-w` argument when supplied. -/
def main_run (deps : List (String × DepStatus)) (weekArg : Option String)
    (inputs : List String) : List Ev × RunRes :=
  match preflight deps with
  | (evs, Outcome.exited c) => (evs, RunRes.exited c)
  | (evs, Outcome.crashed m) => (evs, RunRes.crashed m)
  | (evs, Outcome.normal) =>
    match weekArg with
    | none => (evs ++ [Ev.parseArgs], RunRes.options none inputs)
    | some arg =>
      match process_week_opt arg inputs with
      | (wevs, PResult.ok w rest) => (evs ++ [Ev.parseArgs] ++ wevs, RunRes.options w rest)
      | (wevs, PResult.crash m) => (evs ++ [Ev.parseArgs] ++ wevs, RunRes.crashed m)

/-- Interpreter startup followed by `main(argv)`: the module-level config
check (lines 21-36) runs before any argument parsing. -/
def program_start (cs : ConfigStatus) (deps : List (String × DepStatus))
    (weekArg : Option String) (inputs : List String) : List Ev × RunRes :=
  match config_check cs with
  | (evs, Outcome.exited c) => (evs, RunRes.exited c)
  | (evs, Outcome.crashed m) => (evs, RunRes.crashed m)
  | (evs, Outcome.normal) =>
    let r := main_run deps weekArg inputs
    (evs ++ r.1, r.2)

/-! ## Distribution fan-out (src/main.py lines 257-292) -/

/-- The upload/notify switches read from `config.ini`. -/
structure DistConfig where
  google_drive_upload : Bool
  post_to_slack : Bool
  post_or_file : String
deriving Repr, DecidableEq

/-- Behavior of `GoogleDriveUploader(...).upload_file()`: a returned
message, or an exception (nothing in lines 257-266 catches it). -/
inductive UploadResult where
  | ok (msg : String)
  | raise
deriving Repr, DecidableEq

/-- The dict returned by the Slack client, read via `.get("ok")` and
`.get("error")`. -/
structure SlackResponse where
  ok : Bool
  error : Option String
deriving Repr, DecidableEq

/-- `"None"`, as Python formats an absent error value. -/
def optStr : Option String → String
  | none => "None"
  | some s => s

/-- The warning for an unrecognized `post_or_file` value (lines 282-284),
formatted. -/
def slackModeWarning (post_or_file : String) : String :=
  "You have configured \"config.ini\" with unsupported Slack setting: post_or_file = " ++
    post_or_file ++ ". Please choose \"post\" or \"file\" and try again."

/-- The success/failure record after a Slack call (lines 286-290). -/
def slackResultLog (report_pdf : String) (resp : SlackResponse) : Ev :=
  if resp.ok then
    Ev.logInfo ("Report " ++ report_pdf ++ " successfully posted to Slack!")
  else
    Ev.logError ("Report " ++ report_pdf ++ " was NOT posted to Slack with error: " ++
      optStr resp.error)

/-- Lines 268-292: the Slack sink.  `slackPost` and `slackFile` are the
collaborator oracles for `post_to_selected_slack_channel` and
`upload_file_to_selected_slack_channel`. -/
def distribution_slack (post_to_slack : Bool) (post_or_file : String)
    (test : Bool) (report_pdf upload_message : String)
    (slackPost slackFile : String → SlackResponse) : List Ev × Outcome :=
  if post_to_slack then
    if !test then
      if post_or_file = "post" then
        ([Ev.slackPostCall upload_message,
          slackResultLog report_pdf (slackPost upload_message)], Outcome.normal)
      else if post_or_file = "file" then
        ([Ev.slackFileCall report_pdf,
          slackResultLog report_pdf (slackFile report_pdf)], Outcome.normal)
      else
        ([Ev.logWarning (slackModeWarning post_or_file)], Outcome.exited 0)
    else
      ([Ev.logInfo "Test report NOT posted to Slack."], Outcome.normal)
  else
    ([], Outcome.normal)

/-- Lines 257-292: the whole distribution fan-out after the report is
built.  `upload_message` starts as `""` (line 258) and is replaced only
when an upload actually happens; an uploader exception propagates uncaught
and aborts the run before the Slack block. -/
def distribution (cfg : DistConfig) (test : Bool) (report_pdf : String)
    (uploader : UploadResult) (slackPost slackFile : String → SlackResponse) :
    List Ev × Outcome :=
  if cfg.google_drive_upload then
    if !test then
      match uploader with
      | UploadResult.raise => ([Ev.uploadCall report_pdf], Outcome.crashed "Exception")
      | UploadResult.ok msg =>
        let s := distribution_slack cfg.post_to_slack cfg.post_or_file test
          report_pdf msg slackPost slackFile
        (Ev.uploadCall report_pdf :: Ev.logInfo msg :: s.1, s.2)
    else
      let s := distribution_slack cfg.post_to_slack cfg.post_or_file test
        report_pdf "" slackPost slackFile
      (Ev.logInfo "Test report NOT uploaded to Google Drive." :: s.1, s.2)
  else
    let s := distribution_slack cfg.post_to_slack cfg.post_or_file test
      report_pdf "" slackPost slackFile
    (s.1, s.2)

/-! ## Concrete collaborator instances (used in closed evaluations) -/

/-- A Report Builder that always succeeds, echoing its arguments. -/
def builderOK : Option String → Option String → BuildOutcome :=
  fun w lid => BuildOutcome.built ⟨w, lid⟩

/-- A Report Builder that rejects exactly the league ID `"badID"` with
`IndexError` and succeeds on everything else. -/
def builderBadID : Option String → Option String → BuildOutcome :=
  fun w lid =>
    if lid = some "badID" then BuildOutcome.indexError else BuildOutcome.built ⟨w, lid⟩

/-- A Report Builder whose league lookup always raises `IndexError`. -/
def builderIndexError : Option String → Option String → BuildOutcome :=
  fun _ _ => BuildOutcome.indexError

/-- A Slack client whose calls always report success. -/
def slackOK : String → SlackResponse :=
  fun _ => { ok := true, error := none }

/-- A dependency list with one not-found and one version-conflict entry. -/
def depsTwoBad : List (String × DepStatus) :=
  [("numpy==1.0", DepStatus.distributionNotFound "nf"),
   ("pandas<2,>=1", DepStatus.versionConflict "vc")]

/-! # Lemmas about the embedded operations -/

example : (select_week ["y"]).2 = PResult.ok none [] := by decide
example : (select_week ["n", "5"]).2 = PResult.ok (some "5") [] := by decide
example : (select_week ["x", "n", "5"]).2 = PResult.ok none [] := by decide
example : (select_week ["n", "99", "y"]).2 = PResult.ok none [] := by decide
example : (select_week ["n", "abc"]).2 = PResult.crash "ValueError" := by decide

/-- A terminating `select_week` call consumes at least the default-question
answer: the unconsumed rest is strictly shorter than the input. -/
theorem select_week_consumes :
    ∀ (l : List String) (v : Option String) (r : List String),
      (select_week l).2 = PResult.ok v r → r.length < l.length := by
  intro l
  induction l using select_week.induct with
  | case1 => intro v r h; rw [select_week.eq_def] at h; simp at h
  | case2 rest2 =>
    intro v r h
    rw [select_week.eq_def] at h
    simp at h
    obtain ⟨hv, hr⟩ := h
    subst hr
    simp only [List.length_cons]
    omega
  | case3 hne =>
    intro v r h
    rw [select_week.eq_def] at h
    simp at h
  | case4 w rest2 hw hne =>
    intro v r h
    rw [select_week.eq_def] at h
    simp [hw] at h
  | case5 w rest2 k hw hk hne =>
    intro v r h
    rw [select_week.eq_def] at h
    simp [hw, hk] at h
    obtain ⟨hv, hr⟩ := h
    subst hr
    simp only [List.length_cons]
    omega
  | case6 w rest2 k hw hk evs val rest3 hrec hne ih =>
    intro v r h
    rw [select_week.eq_def] at h
    simp [hw, hk, hrec] at h
    have hlt := ih val rest3 (by simp [hrec])
    obtain ⟨hv, hr⟩ := h
    subst hr
    simp only [List.length_cons]
    omega
  | case7 w rest2 k hw hk evs m hrec hne ih =>
    intro v r h
    rw [select_week.eq_def] at h
    simp [hw, hk, hrec] at h
  | case8 w rest2 hwy hwn evs val rest3 hrec ih =>
    intro v r h
    rw [select_week.eq_def] at h
    simp [hwy, hwn, hrec] at h
    have hlt := ih val rest3 (by simp [hrec])
    obtain ⟨hv, hr⟩ := h
    subst hr
    simp only [List.length_cons]
    omega
  | case9 w rest2 hwy hwn evs m hrec ih =>
    intro v r h
    rw [select_week.eq_def] at h
    simp [hwy, hwn, hrec] at h

/-- Whatever `select_week` returns is an admissible week: `None` (also on
the retry paths that discard their result) or a string whose `int()` value
lies in `[1, 17]`. -/
theorem select_week_valid :
    ∀ (l : List String) (v : Option String) (r : List String),
      (select_week l).2 = PResult.ok v r → validWeekB v = true := by
  intro l
  induction l using select_week.induct with
  | case1 => intro v r h; rw [select_week.eq_def] at h; simp at h
  | case2 rest2 =>
    intro v r h
    rw [select_week.eq_def] at h
    simp at h
    simp [← h.1, validWeekB]
  | case3 hne =>
    intro v r h
    rw [select_week.eq_def] at h
    simp at h
  | case4 w rest2 hw hne =>
    intro v r h
    rw [select_week.eq_def] at h
    simp [hw] at h
  | case5 w rest2 k hw hk hne =>
    intro v r h
    rw [select_week.eq_def] at h
    simp [hw, hk] at h
    simp [← h.1, validWeekB, hw]
    omega
  | case6 w rest2 k hw hk evs val rest3 hrec hne ih =>
    intro v r h
    rw [select_week.eq_def] at h
    simp [hw, hk, hrec] at h
    simp [← h.1, validWeekB]
  | case7 w rest2 k hw hk evs m hrec hne ih =>
    intro v r h
    rw [select_week.eq_def] at h
    simp [hw, hk, hrec] at h
  | case8 w rest2 hwy hwn evs val rest3 hrec ih =>
    intro v r h
    rw [select_week.eq_def] at h
    simp [hwy, hwn, hrec] at h
    simp [← h.1, validWeekB]
  | case9 w rest2 hwy hwn evs m hrec ih =>
    intro v r h
    rw [select_week.eq_def] at h
    simp [hwy, hwn, hrec] at h

/-- `select_week` only shows week prompts and printed warnings: its trace
never contains a Report Builder call nor a league prompt. -/
theorem select_week_trace_shape :
    ∀ (l : List String),
      (∀ wk lid, Ev.buildCall wk lid ∉ (select_week l).1) ∧
      Ev.promptDefaultLeague ∉ (select_week l).1 ∧
      Ev.promptLeagueId ∉ (select_week l).1 := by
  intro l
  induction l using select_week.induct with
  | case1 => rw [select_week.eq_def]; simp
  | case2 rest2 => rw [select_week.eq_def]; simp
  | case3 hne => rw [select_week.eq_def]; simp
  | case4 w rest2 hw hne => rw [select_week.eq_def]; simp [hw]
  | case5 w rest2 k hw hk hne => rw [select_week.eq_def]; simp [hw, hk]
  | case6 w rest2 k hw hk evs val rest3 hrec hne ih =>
    rw [select_week.eq_def]
    simp [hrec] at ih
    simp [hw, hk, hrec, ih.1, ih.2.1, ih.2.2]
  | case7 w rest2 k hw hk evs m hrec hne ih =>
    rw [select_week.eq_def]
    simp [hrec] at ih
    simp [hw, hk, hrec, ih.1, ih.2.1, ih.2.2]
  | case8 w rest2 hwy hwn evs val rest3 hrec ih =>
    rw [select_week.eq_def]
    simp [hrec] at ih
    simp [hwy, hwn, hrec, ih.1, ih.2.1, ih.2.2]
  | case9 w rest2 hwy hwn evs m hrec ih =>
    rw [select_week.eq_def]
    simp [hrec] at ih
    simp [hwy, hwn, hrec, ih.1, ih.2.1, ih.2.2]

theorem resolveWeek_consumes (week : Option String) (l : List String)
    (evs : List Ev) (v : Option String) (r : List String)
    (h : resolveWeek week l = (evs, PResult.ok v r)) : r.length ≤ l.length := by
  unfold resolveWeek at h
  by_cases ht : truthy week
  · simp [ht] at h
    simp [← h.2.2]
  · simp [ht] at h
    exact Nat.le_of_lt (select_week_consumes l v r (by simp [h]))

theorem resolveWeek_valid (week : Option String) (l : List String)
    (evs : List Ev) (v : Option String) (r : List String)
    (hweek : validWeekB week = true)
    (h : resolveWeek week l = (evs, PResult.ok v r)) : validWeekB v = true := by
  unfold resolveWeek at h
  by_cases ht : truthy week
  · simp [ht] at h
    simp [← h.2.1, hweek]
  · simp [ht] at h
    exact select_week_valid l v r (by simp [h])

theorem resolveWeek_trace_shape (week : Option String) (l : List String) :
    (∀ wk lid, Ev.buildCall wk lid ∉ (resolveWeek week l).1) ∧
    Ev.promptDefaultLeague ∉ (resolveWeek week l).1 ∧
    Ev.promptLeagueId ∉ (resolveWeek week l).1 := by
  unfold resolveWeek
  by_cases ht : truthy week
  · simp [ht]
  · simp [ht]
    exact select_week_trace_shape l

theorem league_try_build_consumes (builder : Option String → Option String → BuildOutcome)
    (week : Option String) (lid : String) (l : List String)
    (evs : List Ev) (rest3 : List String)
    (h : league_try_build builder week lid l = (evs, TryOut.retryAfter rest3)) :
    rest3.length ≤ l.length := by
  unfold league_try_build at h
  match hrw : resolveWeek week l with
  | (wevs, PResult.crash m) => simp [hrw] at h
  | (wevs, PResult.ok wfr r3) =>
    have hle := resolveWeek_consumes week l wevs wfr r3 hrw
    match hb : builder wfr (some lid) with
    | BuildOutcome.built r => simp [hrw, hb] at h
    | BuildOutcome.indexError =>
      simp [hrw, hb] at h
      rw [← h.2]
      exact hle
    | BuildOutcome.otherError => simp [hrw, hb] at h

/-- Fuel adequacy: any two fuel amounts exceeding the number of remaining
stdin answers give the same run, so the `"OutOfFuel"` branch of
`select_league_fuel` is unreachable from `select_league` and the model is
the recursion's unique terminating behavior. -/
theorem select_league_fuel_stable
    (builder : Option String → Option String → BuildOutcome) (week : Option String) :
    ∀ (fuel1 fuel2 : Nat) (league_id : Option String) (inputs : List String),
      inputs.length < fuel1 → inputs.length < fuel2 →
      select_league_fuel builder week fuel1 league_id inputs =
        select_league_fuel builder week fuel2 league_id inputs := by
  intro fuel1
  induction fuel1 with
  | zero => intro fuel2 league_id inputs h1; omega
  | succ n IH =>
    intro fuel2 league_id inputs h1 h2
    match fuel2, h2 with
    | m + 1, h2 =>
      by_cases ht : truthy league_id
      · simp [select_league_fuel, ht]
      · match inputs with
        | [] => simp [select_league_fuel, ht]
        | d :: rest =>
          by_cases hdy : d = "y"
          · simp [select_league_fuel, ht, hdy]
          · by_cases hdn : d = "n"
            · match rest with
              | [] => simp [select_league_fuel, ht, hdy, hdn]
              | lid :: rest2 =>
                match htry : league_try_build builder week lid rest2 with
                | (evs, TryOut.done res) =>
                  simp [select_league_fuel, ht, hdy, hdn, htry]
                | (evs, TryOut.retryAfter rest3) =>
                  have hle := league_try_build_consumes builder week lid rest2 evs rest3 htry
                  have hrec : select_league_fuel builder week n none rest3 =
                      select_league_fuel builder week m none rest3 := by
                    apply IH
                    · simp only [List.length_cons] at h1; omega
                    · simp only [List.length_cons] at h2; omega
                  simp [select_league_fuel, ht, hdy, hdn, htry, hrec]
            · have hrec : select_league_fuel builder week n none rest =
                  select_league_fuel builder week m none rest := by
                apply IH
                · simp only [List.length_cons] at h1; omega
                · simp only [List.length_cons] at h2; omega
              simp [select_league_fuel, ht, hdy, hdn, hrec]

theorem resolveWeek_no_build (week : Option String) (l : List String)
    (wevs : List Ev) (res : PResult (Option String))
    (h : resolveWeek week l = (wevs, res)) (wk lid : Option String) :
    Ev.buildCall wk lid ∉ wevs := by
  have hs := (resolveWeek_trace_shape week l).1 wk lid
  simp [h] at hs
  exact hs

theorem resolveWeek_no_league_prompts (week : Option String) (l : List String)
    (wevs : List Ev) (res : PResult (Option String))
    (h : resolveWeek week l = (wevs, res)) :
    Ev.promptDefaultLeague ∉ wevs ∧ Ev.promptLeagueId ∉ wevs := by
  have hs := (resolveWeek_trace_shape week l).2
  simp [h] at hs
  exact hs

/-- Any Report Builder call made by `league_build` passes an admissible
`week_for_report` when the incoming week is admissible. -/
theorem league_build_build_valid
    (builder : Option String → Option String → BuildOutcome)
    (week lid_kw : Option String) (l : List String)
    (hweek : validWeekB week = true) (wk lid : Option String)
    (hmem : Ev.buildCall wk lid ∈ (league_build builder week lid_kw l).1) :
    validWeekB wk = true := by
  unfold league_build at hmem
  match hrw : resolveWeek week l with
  | (wevs, PResult.crash m) =>
    simp [hrw] at hmem
    exact absurd hmem (resolveWeek_no_build week l wevs _ hrw wk lid)
  | (wevs, PResult.ok wfr rest) =>
    simp [hrw] at hmem
    rcases hmem with hmem | hmem
    · exact absurd hmem (resolveWeek_no_build week l wevs _ hrw wk lid)
    · rw [hmem.1]
      exact resolveWeek_valid week l wevs wfr rest hweek hrw

/-- Any Report Builder call made by `league_try_build` passes an admissible
`week_for_report` when the incoming week is admissible. -/
theorem league_try_build_build_valid
    (builder : Option String → Option String → BuildOutcome)
    (week : Option String) (lid0 : String) (l : List String)
    (hweek : validWeekB week = true) (wk lid : Option String)
    (hmem : Ev.buildCall wk lid ∈ (league_try_build builder week lid0 l).1) :
    validWeekB wk = true := by
  unfold league_try_build at hmem
  match hrw : resolveWeek week l with
  | (wevs, PResult.crash m) =>
    simp [hrw] at hmem
    exact absurd hmem (resolveWeek_no_build week l wevs _ hrw wk lid)
  | (wevs, PResult.ok wfr rest) =>
    match hb : builder wfr (some lid0) with
    | BuildOutcome.built r =>
      simp [hrw, hb] at hmem
      rcases hmem with hmem | hmem
      · exact absurd hmem (resolveWeek_no_build week l wevs _ hrw wk lid)
      · rw [hmem.1]
        exact resolveWeek_valid week l wevs wfr rest hweek hrw
    | BuildOutcome.indexError =>
      simp [hrw, hb] at hmem
      rcases hmem with hmem | hmem
      · exact absurd hmem (resolveWeek_no_build week l wevs _ hrw wk lid)
      · rw [hmem.1]
        exact resolveWeek_valid week l wevs wfr rest hweek hrw
    | BuildOutcome.otherError =>
      simp [hrw, hb] at hmem
      rcases hmem with hmem | hmem
      · exact absurd hmem (resolveWeek_no_build week l wevs _ hrw wk lid)
      · rw [hmem.1]
        exact resolveWeek_valid week l wevs wfr rest hweek hrw

theorem select_league_fuel_build_valid
    (builder : Option String → Option String → BuildOutcome)
    (week : Option String) (hweek : validWeekB week = true) :
    ∀ (fuel : Nat) (league_id : Option String) (inputs : List String)
      (wk lid : Option String),
      Ev.buildCall wk lid ∈ (select_league_fuel builder week fuel league_id inputs).1 →
      validWeekB wk = true := by
  intro fuel
  induction fuel with
  | zero => intro league_id inputs wk lid hmem; simp [select_league_fuel] at hmem
  | succ n IH =>
    intro league_id inputs wk lid hmem
    by_cases ht : truthy league_id
    · simp [select_league_fuel, ht] at hmem
      exact league_build_build_valid builder week league_id inputs hweek wk lid hmem
    · match inputs with
      | [] => simp [select_league_fuel, ht] at hmem
      | d :: rest =>
        by_cases hdy : d = "y"
        · simp [select_league_fuel, ht, hdy] at hmem
          exact league_build_build_valid builder week none rest hweek wk lid hmem
        · by_cases hdn : d = "n"
          · match rest with
            | [] => simp [select_league_fuel, ht, hdy, hdn] at hmem
            | lid2 :: rest2 =>
              match htry : league_try_build builder week lid2 rest2 with
              | (evs, TryOut.done res) =>
                simp [select_league_fuel, ht, hdy, hdn, htry] at hmem
                exact league_try_build_build_valid builder week lid2 rest2 hweek wk lid
                  (by simp [htry, hmem])
              | (evs, TryOut.retryAfter rest3) =>
                simp [select_league_fuel, ht, hdy, hdn, htry] at hmem
                rcases hmem with hmem | hmem
                · exact league_try_build_build_valid builder week lid2 rest2 hweek wk lid
                    (by simp [htry, hmem])
                · exact IH none rest3 wk lid hmem
          · simp [select_league_fuel, ht, hdy, hdn] at hmem
            exact IH none rest wk lid hmem

/-- Week invariant through league resolution: when `select_league` starts
from an admissible week value, every Report Builder call it ever makes
(including on retries after an invalid answer or a rejected league ID)
passes an admissible `week_for_report`. -/
theorem select_league_build_valid
    (builder : Option String → Option String → BuildOutcome)
    (week : Option String) (hweek : validWeekB week = true)
    (league_id : Option String) (inputs : List String) (wk lid : Option String)
    (hmem : Ev.buildCall wk lid ∈ (select_league builder week league_id inputs).1) :
    validWeekB wk = true :=
  select_league_fuel_build_valid builder week hweek (inputs.length + 1)
    league_id inputs wk lid hmem

/-- Whatever week value `-w` processing stores is admissible. -/
theorem process_week_opt_valid (arg : String) (l : List String)
    (v : Option String) (r : List String)
    (h : (process_week_opt arg l).2 = PResult.ok v r) : validWeekB v = true := by
  unfold process_week_opt at h
  match hp : pyInt arg with
  | none => simp [hp] at h
  | some k =>
    by_cases hk : k < 1 ∨ k > 17
    · simp [hp, hk] at h
      exact select_week_valid l v r h
    · simp [hp, hk] at h
      rw [← h.1]
      simp [validWeekB, hp]
      omega

theorem process_week_opt_no_build (arg : String) (l : List String)
    (wk lid : Option String) :
    Ev.buildCall wk lid ∉ (process_week_opt arg l).1 := by
  unfold process_week_opt
  match hp : pyInt arg with
  | none => simp
  | some k =>
    by_cases hk : k < 1 ∨ k > 17
    · simp [hk]
      exact (select_week_trace_shape l).1 wk lid
    · simp [hk]

theorem depLog_all_logError (dep : String) (st : DepStatus) :
    ∀ e ∈ depLog dep st, ∃ s, e = Ev.logError s := by
  cases st <;> simp [depLog]

theorem depLogs_flat_all_logError (deps : List (String × DepStatus)) :
    ∀ e ∈ (deps.map (fun p => depLog p.1 p.2)).flatten, ∃ s, e = Ev.logError s := by
  intro e he
  rw [List.mem_flatten] at he
  rcases he with ⟨l, hl, hel⟩
  rw [List.mem_map] at hl
  rcases hl with ⟨p, hp, rfl⟩
  exact depLog_all_logError p.1 p.2 e hel

theorem preflight_all_logError (deps : List (String × DepStatus)) :
    ∀ e ∈ (preflight deps).1, ∃ s, e = Ev.logError s := by
  intro e he
  unfold preflight at he
  by_cases hf : failCount deps > 0
  · rw [if_pos hf] at he
    rw [List.mem_append] at he
    rcases he with he | he
    · exact depLogs_flat_all_logError deps e he
    · rw [List.mem_singleton] at he
      exact ⟨missingSummary (failCount deps), he⟩
  · rw [if_neg hf] at he
    exact depLogs_flat_all_logError deps e he

theorem main_run_no_build (deps : List (String × DepStatus))
    (weekArg : Option String) (inputs : List String) (wk lid : Option String) :
    Ev.buildCall wk lid ∉ (main_run deps weekArg inputs).1 := by
  intro hmem
  unfold main_run at hmem
  match hpre : preflight deps with
  | (pevs, Outcome.exited c) =>
    simp only [hpre] at hmem
    rcases preflight_all_logError deps _ (by rw [hpre]; exact hmem) with ⟨s, hs⟩
    exact Ev.noConfusion hs
  | (pevs, Outcome.crashed m) =>
    simp only [hpre] at hmem
    rcases preflight_all_logError deps _ (by rw [hpre]; exact hmem) with ⟨s, hs⟩
    exact Ev.noConfusion hs
  | (pevs, Outcome.normal) =>
    match weekArg with
    | none =>
      simp only [hpre] at hmem
      rw [List.mem_append] at hmem
      rcases hmem with hmem | hmem
      · rcases preflight_all_logError deps _ (by rw [hpre]; exact hmem) with ⟨s, hs⟩
        exact Ev.noConfusion hs
      · rw [List.mem_singleton] at hmem
        exact Ev.noConfusion hmem
    | some arg =>
      match hw : process_week_opt arg inputs with
      | (wevs, PResult.ok v r) =>
        simp only [hpre, hw] at hmem
        rw [List.mem_append, List.mem_append] at hmem
        rcases hmem with (hmem | hmem) | hmem
        · rcases preflight_all_logError deps _ (by rw [hpre]; exact hmem) with ⟨s, hs⟩
          exact Ev.noConfusion hs
        · rw [List.mem_singleton] at hmem
          exact Ev.noConfusion hmem
        · have hnb := process_week_opt_no_build arg inputs wk lid
          rw [hw] at hnb
          exact absurd hmem hnb
      | (wevs, PResult.crash m) =>
        simp only [hpre, hw] at hmem
        rw [List.mem_append, List.mem_append] at hmem
        rcases hmem with (hmem | hmem) | hmem
        · rcases preflight_all_logError deps _ (by rw [hpre]; exact hmem) with ⟨s, hs⟩
          exact Ev.noConfusion hs
        · rw [List.mem_singleton] at hmem
          exact Ev.noConfusion hmem
        · have hnb := process_week_opt_no_build arg inputs wk lid
          rw [hw] at hnb
          exact absurd hmem hnb

theorem main_run_options_valid (deps : List (String × DepStatus))
    (weekArg : Option String) (inputs : List String)
    (w : Option String) (rest : List String)
    (h : (main_run deps weekArg inputs).2 = RunRes.options w rest) :
    validWeekB w = true := by
  unfold main_run at h
  match hpre : preflight deps with
  | (pevs, Outcome.exited c) => simp only [hpre] at h; exact absurd h (by simp)
  | (pevs, Outcome.crashed m) => simp only [hpre] at h; exact absurd h (by simp)
  | (pevs, Outcome.normal) =>
    match weekArg with
    | none =>
      simp only [hpre] at h
      simp at h
      rw [← h.1]
      rfl
    | some arg =>
      match hw : process_week_opt arg inputs with
      | (wevs, PResult.ok v r) =>
        simp only [hpre, hw] at h
        simp at h
        rw [← h.1]
        exact process_week_opt_valid arg inputs v r (by rw [hw])
      | (wevs, PResult.crash m) =>
        simp only [hpre, hw] at h
        exact absurd h (by simp)

theorem config_check_all_logs (cs : ConfigStatus) :
    ∀ e ∈ (config_check cs).1, (∃ s, e = Ev.logError s) ∨ (∃ s, e = Ev.logDebug s) := by
  cases cs <;> simp [config_check]

theorem program_start_no_build (cs : ConfigStatus) (deps : List (String × DepStatus))
    (weekArg : Option String) (inputs : List String) (wk lid : Option String) :
    Ev.buildCall wk lid ∉ (program_start cs deps weekArg inputs).1 := by
  unfold program_start
  match hc : config_check cs with
  | (cevs, Outcome.exited c) =>
    intro hmem
    simp at hmem
    rcases config_check_all_logs cs _ (by rw [hc]; exact hmem) with ⟨s, hs⟩ | ⟨s, hs⟩ <;>
      exact Ev.noConfusion hs
  | (cevs, Outcome.crashed m) =>
    intro hmem
    simp at hmem
    rcases config_check_all_logs cs _ (by rw [hc]; exact hmem) with ⟨s, hs⟩ | ⟨s, hs⟩ <;>
      exact Ev.noConfusion hs
  | (cevs, Outcome.normal) =>
    intro hmem
    simp at hmem
    rcases hmem with hmem | hmem
    · rcases config_check_all_logs cs _ (by rw [hc]; exact hmem) with ⟨s, hs⟩ | ⟨s, hs⟩ <;>
        exact Ev.noConfusion hs
    · exact absurd hmem (main_run_no_build deps weekArg inputs wk lid)

theorem program_start_options_valid (cs : ConfigStatus) (deps : List (String × DepStatus))
    (weekArg : Option String) (inputs : List String)
    (w : Option String) (rest : List String)
    (h : (program_start cs deps weekArg inputs).2 = RunRes.options w rest) :
    validWeekB w = true := by
  unfold program_start at h
  match hc : config_check cs with
  | (cevs, Outcome.exited c) => simp [hc] at h
  | (cevs, Outcome.crashed m) => simp [hc] at h
  | (cevs, Outcome.normal) =>
    simp [hc] at h
    exact main_run_options_valid deps weekArg inputs w rest h

/-- The whole trace produced when the preflight scan finds failures. -/
theorem main_run_preflight_fail (deps : List (String × DepStatus))
    (weekArg : Option String) (inputs : List String)
    (hf : failCount deps > 0) :
    main_run deps weekArg inputs =
      ((deps.map (fun p => depLog p.1 p.2)).flatten ++
         [Ev.logError (missingSummary (failCount deps))],
       RunRes.exited 0) := by
  have hpre : preflight deps =
      ((deps.map (fun p => depLog p.1 p.2)).flatten ++
         [Ev.logError (missingSummary (failCount deps))],
       Outcome.exited 0) := by
    simp [preflight, hf]
  simp [main_run, hpre]

/-! # Claims -/

/-- C1: the claim states that after arbitrarily many invalid interactive
answers followed by one valid entry, `select_week` / `select_league` return
the outcome of that final valid entry, never `None`.  The code violates
this: the retry calls on lines 193, 217, 231, 234 of `src/main.py` lack
`return`, so the retried resolution runs but its value is discarded and the
resolver returns `None`.  Evaluation at the failing inputs: after the
invalid answer `"x"`, `select_week` with final valid answers `n`/`5`
returns `None` instead of `"5"`, and `select_league` with final valid
answer `y` (and a builder that succeeds) returns `None` instead of the
built report. -/
theorem C1_retry_discards_result_returns_none :
    (select_week ["x", "n", "5"]).2 = PResult.ok none [] ∧
    (select_league builderOK none none ["x", "y", "y"]).2 = PResult.ok none [] := by
  decide

/-- C2: the claim states that after an interactively entered league ID is
rejected with `IndexError`, resolution restarts with the ID cleared and the
caller ultimately receives the report built from the subsequently accepted
selection.  The code restarts correctly (the trace below shows the rejected
`"badID"` is never reused: the operator is re-prompted and the builder is
next called with the fresh `"goodID"`), but line 193 lacks `return`, so the
successfully rebuilt report is discarded and the caller receives `None` —
`__main__` then crashes calling `create_pdf_report()` on `None`. -/
theorem C2_league_retry_rebuilds_but_discards_report :
    select_league builderBadID none none ["n", "badID", "y", "n", "goodID", "y"] =
      ([Ev.promptDefaultLeague, Ev.promptLeagueId, Ev.promptDefaultWeek,
        Ev.buildCall none (some "badID"),
        Ev.printOut "The league ID you have selected is not valid.",
        Ev.promptDefaultLeague, Ev.promptLeagueId, Ev.promptDefaultWeek,
        Ev.buildCall none (some "goodID")],
       PResult.ok none []) := by
  decide

/-- C10: when a league ID is supplied on the command line (the
pre-confirmed `"selected"` path), an `IndexError` from the Report Builder
is not caught: `select_league` ends in the propagated exception, and no
league prompt is ever shown (no re-prompt) — the re-resolution loop applies
only to interactively entered IDs. -/
theorem C10_cli_league_indexerror_propagates
    (builder : Option String → Option String → BuildOutcome)
    (week lid : Option String) (inputs : List String)
    (wevs : List Ev) (wfr : Option String) (rest : List String)
    (ht : truthy lid = true)
    (hrw : resolveWeek week inputs = (wevs, PResult.ok wfr rest))
    (hb : builder wfr lid = BuildOutcome.indexError) :
    select_league builder week lid inputs =
      (wevs ++ [Ev.buildCall wfr lid], PResult.crash "IndexError") ∧
    Ev.promptDefaultLeague ∉ wevs ∧ Ev.promptLeagueId ∉ wevs := by
  have hlp := resolveWeek_no_league_prompts week inputs wevs _ hrw
  refine ⟨?_, hlp.1, hlp.2⟩
  simp [select_league, select_league_fuel, ht, league_build, hrw, hb]

/-- C10 witness: a CLI league ID `"12345"` with CLI week `"3"` and a
builder whose lookup raises `IndexError`. -/
theorem C10_witness :
    truthy (some "12345") = true ∧
    resolveWeek (some "3") [] = ([], PResult.ok (some "3") []) ∧
    select_league builderIndexError (some "3") (some "12345") [] =
      ([Ev.buildCall (some "3") (some "12345")], PResult.crash "IndexError") := by
  have h1 : truthy (some "12345") = true := by decide
  have h2 : resolveWeek (some "3") [] = ([], PResult.ok (some "3") []) := by decide
  have h3 : builderIndexError (some "3") (some "12345") = BuildOutcome.indexError := rfl
  have h := C10_cli_league_indexerror_propagates builderIndexError (some "3")
    (some "12345") [] [] (some "3") [] h1 h2 h3
  exact ⟨h1, h2, h.1⟩

/-- C4: with the test flag set, no Storage Uploader call and no
Notification Client call happens, whatever the enablement flags are, and
each enabled-but-skipped distribution step logs its skip. -/
theorem C4_test_mode_isolation (cfg : DistConfig) (pdf : String)
    (u : UploadResult) (sp sf : String → SlackResponse) :
    (∀ p, Ev.uploadCall p ∉ (distribution cfg true pdf u sp sf).1) ∧
    (∀ m, Ev.slackPostCall m ∉ (distribution cfg true pdf u sp sf).1) ∧
    (∀ p, Ev.slackFileCall p ∉ (distribution cfg true pdf u sp sf).1) ∧
    (cfg.google_drive_upload = true →
      Ev.logInfo "Test report NOT uploaded to Google Drive." ∈
        (distribution cfg true pdf u sp sf).1) ∧
    (cfg.post_to_slack = true →
      Ev.logInfo "Test report NOT posted to Slack." ∈
        (distribution cfg true pdf u sp sf).1) := by
  rcases cfg with ⟨gdu, pts, pof⟩
  cases gdu <;> cases pts <;> simp [distribution, distribution_slack]

/-- C4 witness: both sinks enabled, test mode set. -/
theorem C4_witness :
    Ev.uploadCall "report.pdf" ∉
      (distribution ⟨true, true, "post"⟩ true "report.pdf" (UploadResult.ok "m") slackOK slackOK).1 ∧
    Ev.logInfo "Test report NOT uploaded to Google Drive." ∈
      (distribution ⟨true, true, "post"⟩ true "report.pdf" (UploadResult.ok "m") slackOK slackOK).1 ∧
    Ev.logInfo "Test report NOT posted to Slack." ∈
      (distribution ⟨true, true, "post"⟩ true "report.pdf" (UploadResult.ok "m") slackOK slackOK).1 := by
  have h := C4_test_mode_isolation ⟨true, true, "post"⟩ "report.pdf"
    (UploadResult.ok "m") slackOK slackOK
  exact ⟨h.1 "report.pdf", h.2.2.2.1 rfl, h.2.2.2.2 rfl⟩

/-- C3 counterexample: both sinks enabled, mode `"post"`, not test mode,
and the Storage Uploader raises.  The claim says the failure is logged, the
Notification Client is still invoked and the exit status is unchanged; the
code instead lets the exception propagate: the run ends in the uncaught
exception after only the upload call — no log record, no Slack call. -/
theorem C3_counterexample_upload_failure_aborts :
    distribution ⟨true, true, "post"⟩ false "report.pdf" UploadResult.raise slackOK slackOK =
      ([Ev.uploadCall "report.pdf"], Outcome.crashed "Exception") := by
  decide

/-- C3 amended: the two sinks are not independent.  An exception from the
Storage Uploader propagates uncaught and aborts the run before the
Notification Client is invoked, with nothing logged; and when upload is
disabled while the mode is `"post"`, notification does not fail predictably
— it silently posts the empty initial `upload_message`. -/
theorem C3_amended_sinks_not_independent (pts : Bool) (pof pdf : String)
    (u : UploadResult) (sp sf : String → SlackResponse) :
    (distribution ⟨true, pts, pof⟩ false pdf UploadResult.raise sp sf =
      ([Ev.uploadCall pdf], Outcome.crashed "Exception")) ∧
    (distribution ⟨false, true, "post"⟩ false pdf u sp sf =
      ([Ev.slackPostCall "", slackResultLog pdf (sp "")], Outcome.normal)) := by
  constructor <;> simp [distribution, distribution_slack]

/-- C7 counterexample: Slack enabled, unrecognized mode `"bogus"`, not test
mode.  The claim says the process exits with a non-zero/distinguished
status; the code calls plain `sys.exit()` (line 285), which exits with
status 0 — indistinguishable from success. -/
theorem C7_counterexample_exit_status_zero :
    distribution ⟨false, true, "bogus"⟩ false "report.pdf" (UploadResult.ok "msg") slackOK slackOK =
      ([Ev.logWarning "You have configured \"config.ini\" with unsupported Slack setting: post_or_file = bogus. Please choose \"post\" or \"file\" and try again."],
       Outcome.exited 0) := by
  decide

/-- C7 amended: an unrecognized notification mode logs a warning naming the
bad value and terminates without any notification call, but via plain
`sys.exit()`, i.e. with exit status 0, not a non-zero status. -/
theorem C7_amended_unrecognized_mode_exits_zero (pof pdf m : String)
    (u : UploadResult) (sp sf : String → SlackResponse)
    (h1 : pof ≠ "post") (h2 : pof ≠ "file") :
    (distribution ⟨false, true, pof⟩ false pdf u sp sf =
      ([Ev.logWarning (slackModeWarning pof)], Outcome.exited 0)) ∧
    (distribution ⟨true, true, pof⟩ false pdf (UploadResult.ok m) sp sf =
      ([Ev.uploadCall pdf, Ev.logInfo m, Ev.logWarning (slackModeWarning pof)],
       Outcome.exited 0)) := by
  constructor <;> simp [distribution, distribution_slack, h1, h2]

/-- C7 witness: the amended behavior at the concrete mode `"bogus"`. -/
theorem C7_witness :
    ("bogus" : String) ≠ "post" ∧
    distribution ⟨false, true, "bogus"⟩ false "report.pdf" (UploadResult.ok "msg") slackOK slackOK =
      ([Ev.logWarning (slackModeWarning "bogus")], Outcome.exited 0) := by
  refine ⟨by decide, ?_⟩
  exact (C7_amended_unrecognized_mode_exits_zero "bogus" "report.pdf" "msg"
    (UploadResult.ok "msg") slackOK slackOK (by decide) (by decide)).1

/-- C8 counterexample: the claim says no week argument string, including a
non-numeric one, crashes argument processing.  `int(arg)` on line 111 is
uncaught: the non-numeric week argument `"abc"` raises `ValueError` and
terminates the process instead of falling back to interactive selection. -/
theorem C8_counterexample_nonnumeric_week_crashes :
    process_week_opt "abc" ["y"] = ([], PResult.crash "ValueError") := by
  decide

/-- C8 amended: a `-w` argument that parses as an integer in `[1, 17]` is
stored in the Parameter Set; one that parses out of that range prints the
invalid-week warning and falls back to interactive week selection; but a
week argument that does not parse as an integer raises an uncaught
`ValueError`, terminating the process. -/
theorem C8_amended_week_argument_processing (arg : String) (inputs : List String)
    (k : Int) :
    (pyInt arg = none → process_week_opt arg inputs = ([], PResult.crash "ValueError")) ∧
    (pyInt arg = some k → 1 ≤ k → k ≤ 17 →
      process_week_opt arg inputs = ([], PResult.ok (some arg) inputs)) ∧
    (pyInt arg = some k → (k < 1 ∨ 17 < k) →
      process_week_opt arg inputs =
        (Ev.printOut "\nPlease select a valid week number from 1 to 17." :: (select_week inputs).1,
         (select_week inputs).2)) := by
  refine ⟨fun hp => ?_, fun hp hk1 hk2 => ?_, fun hp hk => ?_⟩
  · simp [process_week_opt, hp]
  · have hk : ¬(k < 1 ∨ k > 17) := by omega
    simp [process_week_opt, hp, hk]
  · have hk2 : k < 1 ∨ k > 17 := by omega
    simp [process_week_opt, hp, hk2]

/-- C8 witness: the out-of-range CLI argument `"25"` falls back to the
interactive prompt, and `"5"` is accepted. -/
theorem C8_witness :
    pyInt "25" = some 25 ∧
    process_week_opt "25" ["y"] =
      (Ev.printOut "\nPlease select a valid week number from 1 to 17." :: (select_week ["y"]).1,
       (select_week ["y"]).2) ∧
    process_week_opt "5" ["y"] = ([], PResult.ok (some "5") ["y"]) := by
  refine ⟨by decide, ?_, ?_⟩
  · exact (C8_amended_week_argument_processing "25" ["y"] 25).2.2 (by decide) (by decide)
  · exact (C8_amended_week_argument_processing "5" ["y"] 5).2.1 (by decide) (by decide) (by decide)

/-- C9 counterexample: with `config.ini` missing, the program logs the
error and performs nothing else — but the claim says the exit status
reflects failure, while the code calls plain `sys.exit()` (lines 29, 33),
which exits with status 0, the success status. -/
theorem C9_counterexample_missing_config_exits_zero :
    program_start ConfigStatus.missing [] none [] =
      ([Ev.logError "Configuration file \"config.ini\" not found. Please make sure that it exists in project root directory."],
       RunRes.exited 0) := by
  decide

/-- C9 amended: a missing or unreadable `config.ini` logs exactly one error
record and exits before any dependency scan or argument parsing, with no
other work — but with exit status 0 (plain `sys.exit()`), not a status
reflecting failure. -/
theorem C9_amended_config_failure_exits_zero (deps : List (String × DepStatus))
    (weekArg : Option String) (inputs : List String) :
    (program_start ConfigStatus.missing deps weekArg inputs =
      ([Ev.logError "Configuration file \"config.ini\" not found. Please make sure that it exists in project root directory."],
       RunRes.exited 0)) ∧
    (program_start ConfigStatus.unreadable deps weekArg inputs =
      ([Ev.logError "Unable to access configuration file \"config.ini\". Please check that file permissions are properly set."],
       RunRes.exited 0)) := by
  constructor <;> rfl

/-- C5: with at least one unsatisfiable dependency, the preflight scan logs
the remediation records of every unsatisfiable entry (not just the first;
the two failure kinds produce different `pip install` targets, see
`depLog`), logs the summary whose noun is `DEPENDENCY` exactly when the
failure count is one and `DEPENDENCIES` otherwise, and terminates the
process (before the `getopt` argument processing marked `parseArgs`, and
before any Report Builder work); with every entry satisfiable, execution
proceeds to argument processing. -/
theorem C5_preflight_reports_all_failures_then_aborts
    (deps : List (String × DepStatus)) (weekArg : Option String)
    (inputs : List String) :
    (failCount deps > 0 →
      (∀ p ∈ deps, p.2 ≠ DepStatus.ok →
        ∀ e ∈ depLog p.1 p.2, e ∈ (main_run deps weekArg inputs).1) ∧
      Ev.logError ("MISSING " ++ toString (failCount deps) ++ " " ++
        (if failCount deps = 1 then "DEPENDENCY" else "DEPENDENCIES") ++
        ". Report generation aborted.") ∈ (main_run deps weekArg inputs).1 ∧
      (main_run deps weekArg inputs).2 = RunRes.exited 0 ∧
      Ev.parseArgs ∉ (main_run deps weekArg inputs).1 ∧
      (∀ wk lid, Ev.buildCall wk lid ∉ (main_run deps weekArg inputs).1)) ∧
    (failCount deps = 0 → Ev.parseArgs ∈ (main_run deps weekArg inputs).1) := by
  constructor
  · intro hf
    rw [main_run_preflight_fail deps weekArg inputs hf]
    refine ⟨?_, ?_, rfl, ?_, ?_⟩
    · intro p hp hne e he
      rw [List.mem_append]
      left
      rw [List.mem_flatten]
      exact ⟨depLog p.1 p.2, List.mem_map.mpr ⟨p, hp, rfl⟩, he⟩
    · rw [List.mem_append]
      right
      simp [missingSummary]
    · intro hmem
      rw [List.mem_append] at hmem
      rcases hmem with hmem | hmem
      · rcases depLogs_flat_all_logError deps _ hmem with ⟨s, hs⟩
        exact Ev.noConfusion hs
      · rw [List.mem_singleton] at hmem
        exact Ev.noConfusion hmem
    · intro wk lid hmem
      rw [List.mem_append] at hmem
      rcases hmem with hmem | hmem
      · rcases depLogs_flat_all_logError deps _ hmem with ⟨s, hs⟩
        exact Ev.noConfusion hs
      · rw [List.mem_singleton] at hmem
        exact Ev.noConfusion hmem
  · intro hf
    have hpre : preflight deps =
        ((deps.map (fun p => depLog p.1 p.2)).flatten, Outcome.normal) := by
      simp [preflight, hf]
    cases weekArg with
    | none => simp [main_run, hpre]
    | some arg =>
      match hw : process_week_opt arg inputs with
      | (wevs, PResult.ok v r) => simp [main_run, hpre, hw]
      | (wevs, PResult.crash m) => simp [main_run, hpre, hw]

/-- C5 witness: two unsatisfiable entries (one not-found, one version
conflict) produce both remediation records, the `MISSING 2 DEPENDENCIES`
summary and the abort; an empty requirement list proceeds to parsing. -/
theorem C5_witness :
    failCount depsTwoBad > 0 ∧
    (main_run depsTwoBad none []).2 = RunRes.exited 0 ∧
    Ev.parseArgs ∉ (main_run depsTwoBad none []).1 ∧
    Ev.logError "MISSING DEPENDENCY: numpy==1.0. Please run `pip install numpy` and retry the report generation." ∈
      (main_run depsTwoBad none []).1 ∧
    Ev.logError "MISSING DEPENDENCY: pandas<2,>=1. Please run `pip install pandas<2,>=1` and retry the report generation." ∈
      (main_run depsTwoBad none []).1 ∧
    Ev.logError "MISSING 2 DEPENDENCIES. Report generation aborted." ∈
      (main_run depsTwoBad none []).1 ∧
    failCount ([] : List (String × DepStatus)) = 0 ∧
    Ev.parseArgs ∈ (main_run ([] : List (String × DepStatus)) none []).1 := by
  have hf : failCount depsTwoBad > 0 := by decide
  have h := C5_preflight_reports_all_failures_then_aborts depsTwoBad none []
  obtain ⟨hall, hsum, hexit, hnoparse, hnobuild⟩ := h.1 hf
  have h0 : failCount ([] : List (String × DepStatus)) = 0 := by decide
  have hproceed := (C5_preflight_reports_all_failures_then_aborts
    ([] : List (String × DepStatus)) none []).2 h0
  refine ⟨hf, hexit, hnoparse, ?_, ?_, ?_, h0, hproceed⟩
  · exact hall ("numpy==1.0", DepStatus.distributionNotFound "nf") (by decide)
      (by decide) _ (by decide)
  · exact hall ("pandas<2,>=1", DepStatus.versionConflict "vc") (by decide)
      (by decide) _ (by decide)
  · exact hsum

/-- C6: whatever week value reaches a Report Builder call — whether taken
from the command line (`program_start` / `main_run` with a `-w` argument)
or obtained through interactive prompting inside week and league resolution
— is either `None` (use the default week) or a string whose integer value
lies in `[1, 17]`. -/
theorem C6_week_invariant (cs : ConfigStatus) (deps : List (String × DepStatus))
    (weekArg leagueArg : Option String) (inputs : List String)
    (builder : Option String → Option String → BuildOutcome)
    (evs0 : List Ev) (w : Option String) (rest : List String)
    (evs1 : List Ev) (res : PResult (Option Report))
    (h1 : program_start cs deps weekArg inputs = (evs0, RunRes.options w rest))
    (h2 : select_league builder w leagueArg rest = (evs1, res)) :
    ∀ wk lid, Ev.buildCall wk lid ∈ evs0 ++ evs1 → validWeekB wk = true := by
  intro wk lid hmem
  rw [List.mem_append] at hmem
  rcases hmem with hmem | hmem
  · have hnb := program_start_no_build cs deps weekArg inputs wk lid
    rw [h1] at hnb
    exact absurd hmem hnb
  · have hval : validWeekB w = true :=
      program_start_options_valid cs deps weekArg inputs w rest (by rw [h1])
    exact select_league_build_valid builder w hval leagueArg rest wk lid (by rw [h2]; exact hmem)

/-- C6 witness: a run with no CLI week, interactive default-week answers,
reaching one Report Builder call with week `None`. -/
theorem C6_witness :
    program_start ConfigStatus.readable [] none ["y", "y"] =
      ([Ev.logDebug "Configuration file \"config.ini\" available. Running Fantasy Football Metrics Weekly Report app...",
        Ev.parseArgs],
       RunRes.options none ["y", "y"]) ∧
    select_league builderOK none none ["y", "y"] =
      ([Ev.promptDefaultLeague, Ev.promptDefaultWeek, Ev.buildCall none none],
       PResult.ok (some ⟨none, none⟩) []) ∧
    validWeekB none = true := by
  have h1 : program_start ConfigStatus.readable [] none ["y", "y"] =
      ([Ev.logDebug "Configuration file \"config.ini\" available. Running Fantasy Football Metrics Weekly Report app...",
        Ev.parseArgs],
       RunRes.options none ["y", "y"]) := by decide
  have h2 : select_league builderOK none none ["y", "y"] =
      ([Ev.promptDefaultLeague, Ev.promptDefaultWeek, Ev.buildCall none none],
       PResult.ok (some ⟨none, none⟩) []) := by decide
  exact ⟨h1, h2,
    C6_week_invariant ConfigStatus.readable [] none none ["y", "y"] builderOK
      _ none ["y", "y"] _ _ h1 h2 none none (by decide)⟩

end FFMWR
